import Mathlib

/-
Verification of the tarpc-distributed-system node against its specification.

The development shallowly embeds the Rust sources:
  src/node_base/resources.rs   (resource manager)
  src/node_base/cmh_funcs.rs   (Chandy-Misra-Haas deadlock detector)
  src/node_base/node.rs        (node core: repair_topology, try_join_other)
  src/rpc_base/server.rs       (overlay RPC handlers)

Modelling conventions:
  - SocketAddr is an opaque identifier, modelled as Nat (Addr).
  - HashMap fields become function maps (key to Option value); HashSet fields
    become duplicate-free lists whose order stands for iteration order.
  - Every RPC send is recorded in an output list (message, from-argument);
    responses that the code consumes come from a pure oracle parameter.
    send_resource_msg / send_cmh_msg additionally advance the Lamport clock by
    two on the success path (one increment before the sleep, one before the
    dispatch, node.rs lines 148-212); transport failure and the repair they
    would trigger touch neither the resource nor the CMH state modelled here.
  - Logging is a no-op, with one exception that changes behaviour: the
    tracing debug statement at cmh_funcs.rs line 276 evaluates
    probe_count.get(&k).unwrap() whenever debug logging is enabled, and
    main.rs line 16 hard-codes RUST_LOG=tarpc_distributed_system=debug, so the
    argument is evaluated and the unwrap aborts the handler when the key is
    absent.  Aborts (unwrap/overflow) are modelled by Option: none means the
    handler task dies instead of returning.
-/

namespace TarpcSystem

/-- Network address of a node (SocketAddr in the source, used as an opaque id). -/
abbrev Addr := Nat

/-- ResourceMessageType from resources.rs lines 9-20. -/
inductive ResourceMessageType where
  | ResourceQuery (r : String)
  | Acquire (r : String)
  | Release (r : String)
  | Owner (a : Addr)
  | Granted (r : String) (a : Addr)
  | Queued
  | Unknown
  | Error
  | Success
deriving DecidableEq, Repr

/-- ResourceState from node.rs lines 14-18: current user and pending queue of a
resource owned by this node.  request_queue is a Vec; push appends at the end,
pop removes from the end. -/
structure ResourceState where
  current_user : Option Addr
  request_queue : List Addr
deriving DecidableEq, Repr

/-- Resource-manager view of the node state (the fields of node.rs
that resources.rs reads or writes).  owned_resources, waiting_for and
used_resources are HashMaps, modelled as function maps; blocked_processes is a
HashSet, modelled as its membership function.  next is neighbor_info.next,
read by the ResourceQuery arm of handle_message. -/
structure RNode where
  addr : Addr
  next : Addr
  owned_resources : String → Option ResourceState
  waiting_for : String → Option Addr
  used_resources : String → Option Addr
  blocked_processes : Addr → Bool

/-- Response oracle for send_resource_msg: given the message and the from
argument, the reply the ring eventually produces. -/
abbrev RSend := ResourceMessageType → Addr → ResourceMessageType

/-- Output of a resource handler: final state, reply returned to the RPC
caller, and the messages this node itself sent (message, from-argument). -/
structure ROut where
  st : RNode
  reply : ResourceMessageType
  sent : List (ResourceMessageType × Addr)

/-- use_resource, resources.rs lines 53-66: record the grant of `resource`.
The owner recorded is the `owner` argument; handle_message passes the
immediate RPC sender for it. -/
def use_resource (st : RNode) (resource : String) (owner : Addr) : RNode :=
  { st with
    waiting_for := fun r => if r = resource then none else st.waiting_for r
    blocked_processes := fun a => if a = owner then false else st.blocked_processes a
    used_resources := fun r => if r = resource then some owner else st.used_resources r }

/-- process_resource_request, resources.rs lines 108-139.  If this node owns
the resource: grant it when free, otherwise push the requester on the back of
the queue (Vec::push) and reply Queued.  If not owned, forward Acquire along
next and return the oracle's reply. -/
def process_resource_request (st : RNode) (send : RSend) (resource : String)
    (frm : Addr) : ROut :=
  match st.owned_resources resource with
  | some state =>
      match state.current_user with
      | none =>
          let owned1 := fun r =>
            if r = resource then some { state with current_user := some frm }
            else st.owned_resources r
          { st := { st with owned_resources := owned1 },
            reply := ResourceMessageType.Granted resource frm,
            sent := [] }
      | some _ =>
          let owned1 := fun r =>
            if r = resource then
              some { state with request_queue := state.request_queue ++ [frm] }
            else st.owned_resources r
          { st := { st with owned_resources := owned1 },
            reply := ResourceMessageType.Queued,
            sent := [] }
  | none =>
      { st := st,
        reply := send (ResourceMessageType.Acquire resource) frm,
        sent := [(ResourceMessageType.Acquire resource, frm)] }

/-- process_resource_release, resources.rs lines 142-175.  When this node owns
the resource and `frm` is the current user: clear the user, take the NEXT user
with Vec::pop — which removes the LAST element of request_queue — and grant to
it when present.  Otherwise forward Release along next. -/
def process_resource_release (st : RNode) (resource : String)
    (frm : Addr) : RNode × List (ResourceMessageType × Addr) :=
  match st.owned_resources resource with
  | some state =>
      if state.current_user = some frm then
        let next_user := state.request_queue.getLast?
        let owned1 := fun r =>
          if r = resource then
            some { current_user := next_user,
                   request_queue := state.request_queue.dropLast }
          else st.owned_resources r
        let st1 : RNode := { st with owned_resources := owned1 }
        match next_user with
        | some nx => (st1, [(ResourceMessageType.Granted resource nx, st.addr)])
        | none => (st1, [])
      else
        (st, [(ResourceMessageType.Release resource, frm)])
  | none =>
      (st, [(ResourceMessageType.Release resource, frm)])

/-- release_resource, resources.rs lines 95-105.  When this node does not hold
the resource, return Ok without touching anything; otherwise remove it from
used_resources and then send Release (from = self.addr), ignoring the send's
outcome.  The Bool is the Ok result (both paths return Ok). -/
def release_resource (st : RNode) (resource : String) :
    RNode × List (ResourceMessageType × Addr) × Bool :=
  match st.used_resources resource with
  | none => (st, [], true)
  | some _ =>
      let st1 : RNode := { st with used_resources := fun r =>
        if r = resource then none else st.used_resources r }
      (st1, [(ResourceMessageType.Release resource, st.addr)], true)

/-- handle_message, resources.rs lines 178-225: dispatch on the inbound
resource message.  Variants other than ResourceQuery, Acquire, Release and
Granted fall to the catch-all arm, which replies Unknown. -/
def handle_message (st : RNode) (send : RSend) (msg : ResourceMessageType)
    (frm : Addr) : ROut :=
  match msg with
  | ResourceMessageType.ResourceQuery resource_id =>
      if (st.owned_resources resource_id).isSome then
        { st := st, reply := ResourceMessageType.Owner st.addr, sent := [] }
      else if frm = st.next then
        { st := st, reply := ResourceMessageType.Unknown, sent := [] }
      else
        { st := st
          reply := send (ResourceMessageType.ResourceQuery resource_id) frm
          sent := [(ResourceMessageType.ResourceQuery resource_id, frm)] }
  | ResourceMessageType.Acquire resource =>
      process_resource_request st send resource frm
  | ResourceMessageType.Release resource =>
      let out := process_resource_release st resource frm
      { st := out.1, reply := ResourceMessageType.Success, sent := out.2 }
  | ResourceMessageType.Granted resource user =>
      if user = st.addr then
        { st := use_resource st resource frm
          reply := ResourceMessageType.Success, sent := [] }
      else
        { st := st
          reply := send (ResourceMessageType.Granted resource user) frm
          sent := [(ResourceMessageType.Granted resource user, frm)] }
  | _ => { st := st, reply := ResourceMessageType.Unknown, sent := [] }

/-- ProbeMessage from cmh_funcs.rs lines 7-13: initiator k, test number m,
sender j, receiver i. -/
structure ProbeMessage where
  k : Addr
  m : Nat
  j : Addr
  i : Addr
deriving DecidableEq, Repr

/-- CmhMessageType from cmh_funcs.rs lines 15-30.  Note the type has no
Unknown variant; Success and Error carry a Lamport timestamp. -/
inductive CmhMessageType where
  | ProbeRequest (p : ProbeMessage)
  | ProbeAnswer (k : Addr) (m : Nat) (i : Addr) (j : Addr)
  | DetectionStart
  | RequestPermission (a : Addr)
  | DenyPermission
  | GrantPermission (a : Addr)
  | Success (t : Nat)
  | Error (t : Nat)
deriving DecidableEq, Repr

/-- CMH view of the node state (the fields of node.rs that cmh_funcs.rs reads
or writes).  waiting_messages_from and permission_queue are HashSets, modelled
as duplicate-free lists in iteration order; the four per-initiator HashMaps
become function maps. -/
structure CmhNode where
  addr : Addr
  is_active : Bool
  lamport_time : Nat
  waiting_messages_from : List Addr
  permission_queue : List Addr
  last_test : Addr → Option Nat
  wait_status : Addr → Option Bool
  parent_nodes : Addr → Option Addr
  probe_count : Addr → Option Nat

/-- Response oracle for send_cmh_msg where the code consumes the reply. -/
abbrev CSend := CmhMessageType → Addr → CmhMessageType

/-- Probe fan-out loop shared by start_detection (cmh_funcs.rs lines 57-70)
and handle_probe (lines 220-233): walk the waiting set, skipping owners
already in sent_to; for every fresh owner increment count, insert
probe_count[k] := count, and send ProbeRequest{k, m, j := self, i := owner}
with from := self (each successful send advances the Lamport clock by two). -/
def probe_loop (selfAddr : Addr) (k : Addr) (m : Nat) (owners : List Addr)
    (seen : List Addr) (count : Nat) (st : CmhNode)
    (msgs : List (CmhMessageType × Addr)) :
    CmhNode × Nat × List (CmhMessageType × Addr) :=
  match owners with
  | [] => (st, count, msgs)
  | o :: rest =>
      if o ∈ seen then probe_loop selfAddr k m rest seen count st msgs
      else
        let count1 := count + 1
        let pc1 := fun a => if a = k then some count1 else st.probe_count a
        let st1 := { st with probe_count := pc1,
                             lamport_time := st.lamport_time + 2 }
        probe_loop selfAddr k m rest (o :: seen) count1 st1
          (msgs ++ [(CmhMessageType.ProbeRequest ⟨k, m, selfAddr, o⟩, selfAddr)])

/-- start_detection, cmh_funcs.rs lines 32-73.  Rejected with Error when the
node is active.  Otherwise k := self; bump last_test[k]; set
wait_status[k] := true; fan a probe out to every distinct member of
waiting_messages_from, counting sends into probe_count[k]; reply Success.
When the waiting set is empty the loop body never runs, so no message is sent
and probe_count is never written. -/
def start_detection (st : CmhNode) :
    CmhNode × CmhMessageType × List (CmhMessageType × Addr) :=
  if st.is_active then (st, CmhMessageType.Error st.lamport_time, [])
  else
    let k := st.addr
    let lt1 := fun a => if a = k then some ((st.last_test k).getD 0 + 1)
                        else st.last_test a
    let ws1 := fun a => if a = k then some true else st.wait_status a
    let st1 := { st with last_test := lt1, wait_status := ws1 }
    let test_num := (st1.last_test k).getD 0
    let out := probe_loop k k test_num st1.waiting_messages_from [] 0 st1 []
    (out.1, CmhMessageType.Success out.1.lamport_time, out.2.2)

/-- set_active, cmh_funcs.rs lines 77-91: raise is_active, clear the waiting
set, drain the permission queue by granting each queued address, clear the
queue. -/
def set_active (st : CmhNode) : CmhNode × List (CmhMessageType × Addr) :=
  let st1 := { st with is_active := true, waiting_messages_from := [] }
  let msgs := st1.permission_queue.map
    (fun owner => (CmhMessageType.GrantPermission owner, st.addr))
  let st2 := { st1 with permission_queue := [],
                        lamport_time := st1.lamport_time +
                          2 * st1.permission_queue.length }
  (st2, msgs)

/-- handle_permission_from, cmh_funcs.rs lines 121-129: drop `frm` from the
waiting set and go active when it empties. -/
def handle_permission_from (st : CmhNode) (frm : Addr) :
    CmhNode × CmhMessageType × List (CmhMessageType × Addr) :=
  let st1 := { st with waiting_messages_from :=
    st.waiting_messages_from.filter (fun a => a != frm) }
  if st1.waiting_messages_from = [] then
    let out := set_active st1
    (out.1, CmhMessageType.Success out.1.lamport_time, out.2)
  else (st1, CmhMessageType.Success st1.lamport_time, [])

/-- handle_probe, cmh_funcs.rs lines 191-248, for a probe addressed to this
node.  Active: ignore.  Fresh test number (m greater than last_test[k]): adopt
it, record the sender as parent, fan the probe out to the waiting set, then
insert probe_count[k] := count (line 235, also when count is zero).  Same test
number while wait_status[k]: reflect ProbeAnswer(k, m, i, j) back.  Else drop. -/
def handle_probe (st : CmhNode) (p : ProbeMessage) :
    CmhNode × CmhMessageType × List (CmhMessageType × Addr) :=
  if st.is_active then (st, CmhMessageType.Success st.lamport_time, [])
  else
    let test_num := (st.last_test p.k).getD 0
    if test_num < p.m then
      let lt1 := fun a => if a = p.k then some p.m else st.last_test a
      let ws1 := fun a => if a = p.k then some true else st.wait_status a
      let pn1 := fun a => if a = p.k then some p.j else st.parent_nodes a
      let st1 := { st with last_test := lt1, wait_status := ws1,
                           parent_nodes := pn1 }
      let out := probe_loop st.addr p.k p.m st1.waiting_messages_from [] 0 st1 []
      let stN := out.1
      let pc2 := fun a => if a = p.k then some out.2.1 else stN.probe_count a
      let st2 := { stN with probe_count := pc2 }
      (st2, CmhMessageType.Success st2.lamport_time, out.2.2)
    else if (st.wait_status p.k).getD false = true ∧ test_num = p.m then
      let st1 := { st with lamport_time := st.lamport_time + 2 }
      (st1, CmhMessageType.Success st1.lamport_time,
        [(CmhMessageType.ProbeAnswer p.k p.m p.i p.j, st.addr)])
    else (st, CmhMessageType.Success st.lamport_time, [])

/-- Result of handle_probe_answer: final state, whether DEADLOCK DETECTED was
logged, the reply, and the messages sent. -/
structure PaOut where
  st : CmhNode
  declared : Bool
  reply : CmhMessageType
  sent : List (CmhMessageType × Addr)

/-- handle_probe_answer, cmh_funcs.rs lines 250-315, reached with i = the
destination field of the message (handle_cmh_message calls it only when that
field equals self.addr; r is the bounced node).  Drop when active, or when m
differs from last_test[k], or when wait_status[k] is unset.  Otherwise the
debug statement at line 276 evaluates probe_count.get(&k).unwrap() — main.rs
enables debug logging, so an absent key aborts the task (none).  Then the
counter is decremented (an underflow on 0 also aborts); at zero the node
declares deadlock when k = self and i = self, else answers to parent_nodes[k]
when recorded, and finally wait_status[k] := false. -/
def handle_probe_answer (st : CmhNode) (k : Addr) (m : Nat) (r : Addr)
    (i : Addr) : Option PaOut :=
  if st.is_active then
    some { st := st, declared := false,
           reply := CmhMessageType.Success st.lamport_time, sent := [] }
  else if ¬ (m = (st.last_test k).getD 0 ∧ (st.wait_status k).getD false = true) then
    some { st := st, declared := false,
           reply := CmhMessageType.Success st.lamport_time, sent := [] }
  else
    match st.probe_count k with
    | none => none
    | some n =>
      match n with
      | 0 => none
      | Nat.succ n1 =>
        let pc1 := fun a => if a = k then some n1 else st.probe_count a
        let st1 := { st with probe_count := pc1 }
        if n1 = 0 then
          let ws0 := fun a => if a = k then some false else st1.wait_status a
          if k = st.addr ∧ i = st.addr then
            let st2 := { st1 with wait_status := ws0 }
            some { st := st2, declared := true,
                   reply := CmhMessageType.Success st2.lamport_time, sent := [] }
          else
            match st.parent_nodes k with
            | some parent_addr =>
                let st2 := { st1 with lamport_time := st1.lamport_time + 2,
                                      wait_status := ws0 }
                some { st := st2, declared := false,
                       reply := CmhMessageType.Success st2.lamport_time,
                       sent := [(CmhMessageType.ProbeAnswer k m i parent_addr,
                                 st.addr)] }
            | none =>
                let st2 := { st1 with wait_status := ws0 }
                some { st := st2, declared := false,
                       reply := CmhMessageType.Success st2.lamport_time,
                       sent := [] }
        else
          some { st := st1, declared := false,
                 reply := CmhMessageType.Success st1.lamport_time, sent := [] }

/-- Output of handle_cmh_message: final state, reply, messages sent by this
node, and whether the deadlock declaration was reached. -/
structure COut where
  st : CmhNode
  reply : CmhMessageType
  sent : List (CmhMessageType × Addr)
  declared : Bool

/-- handle_cmh_message, cmh_funcs.rs lines 131-188: dispatch on the inbound
CMH message.  Permission messages addressed elsewhere, probes addressed
elsewhere and answers addressed elsewhere are forwarded along next (the
oracle supplies the reply).  The catch-all arm — reached by DenyPermission,
Success and Error — replies Error(lamport_time). -/
def handle_cmh_message (st : CmhNode) (send : CSend) (msg : CmhMessageType)
    (frm : Addr) : Option COut :=
  match msg with
  | CmhMessageType.RequestPermission a =>
      if a = st.addr then
        if st.is_active then
          some { st := st, reply := CmhMessageType.GrantPermission frm,
                 sent := [], declared := false }
        else
          let pq1 := if frm ∈ st.permission_queue then st.permission_queue
                     else st.permission_queue ++ [frm]
          some { st := { st with permission_queue := pq1 },
                 reply := CmhMessageType.DenyPermission, sent := [],
                 declared := false }
      else
        some { st := { st with lamport_time := st.lamport_time + 2 },
               reply := send (CmhMessageType.RequestPermission a) frm,
               sent := [(CmhMessageType.RequestPermission a, frm)],
               declared := false }
  | CmhMessageType.GrantPermission a =>
      if a = st.addr then
        let out := handle_permission_from st frm
        some { st := out.1, reply := out.2.1, sent := out.2.2, declared := false }
      else
        some { st := { st with lamport_time := st.lamport_time + 2 },
               reply := send (CmhMessageType.GrantPermission a) frm,
               sent := [(CmhMessageType.GrantPermission a, frm)],
               declared := false }
  | CmhMessageType.ProbeRequest p =>
      if p.i = st.addr then
        let out := handle_probe st p
        some { st := out.1, reply := out.2.1, sent := out.2.2, declared := false }
      else
        some { st := { st with lamport_time := st.lamport_time + 2 },
               reply := send (CmhMessageType.ProbeRequest p) frm,
               sent := [(CmhMessageType.ProbeRequest p, frm)],
               declared := false }
  | CmhMessageType.ProbeAnswer k m i j =>
      if j = st.addr then
        (handle_probe_answer st k m i j).map
          (fun o => { st := o.st, reply := o.reply, sent := o.sent,
                      declared := o.declared })
      else
        some { st := { st with lamport_time := st.lamport_time + 2 },
               reply := send (CmhMessageType.ProbeAnswer k m i j) frm,
               sent := [(CmhMessageType.ProbeAnswer k m i j, frm)],
               declared := false }
  | CmhMessageType.DetectionStart =>
      let out := start_detection st
      some { st := out.1, reply := out.2.1, sent := out.2.2, declared := false }
  | _ =>
      some { st := st, reply := CmhMessageType.Error st.lamport_time,
             sent := [], declared := false }

/-- NeighborInfo from node.rs lines 53-58. -/
structure NeighborInfo where
  next : Addr
  nnext : Addr
  prev : Addr
deriving DecidableEq, Repr

/-- Global overlay state: the NeighborInfo held by each node, indexed by its
address. -/
abbrev Topo := Addr → NeighborInfo

/-- Pointwise update of the overlay state at one node. -/
def updTopo (st : Topo) (a : Addr) (t : NeighborInfo) : Topo :=
  fun b => if b = a then t else st b

/-- change_next RPC handler, server.rs lines 108-120, executed at node a. -/
def change_next (st : Topo) (a v : Addr) : Topo :=
  updTopo st a { st a with next := v }

/-- change_nnext RPC handler, server.rs lines 122-134, executed at node a. -/
def change_nnext (st : Topo) (a v : Addr) : Topo :=
  updTopo st a { st a with nnext := v }

/-- change_prev RPC handler, server.rs lines 136-148, executed at node a:
set prev := v and return the node's next. -/
def change_prev (st : Topo) (a v : Addr) : Topo × Addr :=
  (updTopo st a { st a with prev := v }, (st a).next)

/-- change_nnext_of_prev RPC handler, server.rs lines 150-158, executed at
node a: forward change_nnext(v) to a's prev. -/
def change_nnext_of_prev (st : Topo) (a v : Addr) : Topo :=
  change_nnext st (st a).prev v

/-- other_joining RPC handler, server.rs lines 41-66, executed at member h
for newcomer x.  Snapshot {next := my_next, nnext, prev := h}; tell my_next
to set prev := x (reply discarded); tell my_prev to set nnext := x; re-read
h's own nnext into the snapshot (line 58); finally h.nnext := my_next and
h.next := x.  Returns the snapshot handed back to the newcomer. -/
def other_joining (st : Topo) (h x : Addr) : Topo × NeighborInfo :=
  let my_next := (st h).next
  let my_prev := (st h).prev
  let tmp0 : NeighborInfo := { next := my_next, nnext := (st h).nnext, prev := h }
  let st1 := (change_prev st my_next x).1
  let st2 := change_nnext st1 my_prev x
  let tmp : NeighborInfo := { tmp0 with nnext := (st2 h).nnext }
  let st3 := change_nnext st2 h my_next
  let st4 := change_next st3 h x
  (st4, tmp)

/-- try_join_other, node.rs lines 134-146, run at newcomer x joining via h:
refuse to join itself; otherwise call other_joining on h and install the
returned NeighborInfo wholesale. -/
def try_join_other (st : Topo) (x h : Addr) : Topo :=
  if x = h then st
  else
    let out := other_joining st h x
    updTopo out.1 x out.2

/-- leave_topology RPC handler, server.rs lines 68-107, executed at the
leaving node l.  Ring of two (prev = next): the sole survivor points next and
prev at itself.  Ring of three (prev = nnext): next gets prev := prev,
nnext := next; prev gets next := next, nnext := nnext.  Four or more: prev
gets next := next, nnext := nnext and relays change_nnext_of_prev(next); next
gets prev := prev. -/
def leave_topology (st : Topo) (l : Addr) : Topo :=
  let prev := (st l).prev
  let next := (st l).next
  let nnext := (st l).nnext
  if prev = next then
    (change_prev (change_next st next next) next next).1
  else if prev = nnext then
    let st1 := (change_prev st next prev).1
    let st2 := change_nnext st1 next next
    let st3 := change_next st2 prev next
    change_nnext st3 prev nnext
  else
    let st1 := change_next st prev next
    let st2 := change_nnext st1 prev nnext
    let st3 := change_nnext_of_prev st2 prev next
    (change_prev st3 next prev).1

/-- Join of newcomer x via member h followed by x gracefully leaving, the
round trip of claim C5. -/
def join_then_leave (st : Topo) (h x : Addr) : Topo :=
  leave_topology (try_join_other st x h) x

/-- Outcome of one missing_node step: either the local repair ran (new
overlay state) or the call was forwarded to the node's next. -/
inductive MissingNodeOutcome where
  | repaired (st : Topo)
  | forwarded (target : Addr)
deriving Inhabited

/-- missing_node RPC handler, server.rs lines 160-185, executed at node a for
missing node mn.  When mn is a's next: a.next := nnext, then change_prev is
called on nnext passing the local variable `next` — the address of the
MISSING node, not a's own address — and its reply becomes a.nnext; then the
2-node shrink sets a.prev := nnext, else prev gets change_nnext(nnext).
Otherwise the call is forwarded to a's next. -/
def missing_node (st : Topo) (a mn : Addr) : MissingNodeOutcome :=
  let next := (st a).next
  let nnext := (st a).nnext
  let prev := (st a).prev
  if mn = (st a).next then
    let st1 := change_next st a nnext
    let pr := change_prev st1 nnext next
    let st2 := updTopo pr.1 a { pr.1 a with nnext := pr.2 }
    if prev = next then
      MissingNodeOutcome.repaired (updTopo st2 a { st2 a with prev := nnext })
    else
      MissingNodeOutcome.repaired (change_nnext st2 prev nnext)
  else
    MissingNodeOutcome.forwarded next

/-- Trace of one repair_topology run, node.rs lines 214-230: whether the
missing_node self-call was issued, every value written to the repairing flag
during the run (in order), and the flag's final value. -/
structure RepairRun where
  issued_missing : Bool
  flag_writes : List Bool
  final_repairing : Bool
deriving DecidableEq, Repr

/-- repair_topology, node.rs lines 214-230, as a trace over the repairing
flag: when the flag already reads true, return at once (no missing_node call,
no writes); otherwise issue the missing_node self-call and then write false
to the flag.  No path ever writes true. -/
def repair_topology (repairing : Bool) : RepairRun :=
  if repairing then
    { issued_missing := false, flag_writes := [], final_repairing := repairing }
  else
    { issued_missing := true, flag_writes := [false], final_repairing := false }

/-- Whether a (possibly aborted) dispatcher run reached the deadlock
declaration: an aborted run declares nothing. -/
def coutDeclared (o : Option COut) : Bool :=
  match o with
  | some c => c.declared
  | none => false

/-- Messages sent by a (possibly aborted) dispatcher run. -/
def coutSent (o : Option COut) : List (CmhMessageType × Addr) :=
  match o with
  | some c => c.sent
  | none => []

/-- Whether a (possibly aborted) handle_probe_answer run reached the deadlock
declaration: an aborted run declares nothing. -/
def paDeclared (o : Option PaOut) : Bool :=
  match o with
  | some c => c.declared
  | none => false

/-- Identity response oracle for resource sends (the reply echoes the
message; concrete statements below never depend on it). -/
def idRSend : RSend := fun m _ => m

/-- Identity response oracle for CMH sends. -/
def idCSend : CSend := fun m _ => m

/-- Freshly constructed node state, resource view (Node::new, node.rs lines
61-92: every map empty). -/
def mkRNode (a nx : Addr) : RNode :=
  { addr := a, next := nx,
    owned_resources := fun _ => none,
    waiting_for := fun _ => none,
    used_resources := fun _ => none,
    blocked_processes := fun _ => false }

/-- Freshly constructed node state, CMH view (Node::new: is_active starts
true, every map empty, clock 0). -/
def mkCmhNode (a : Addr) : CmhNode :=
  { addr := a, is_active := true, lamport_time := 0,
    waiting_messages_from := [], permission_queue := [],
    last_test := fun _ => none, wait_status := fun _ => none,
    parent_nodes := fun _ => none, probe_count := fun _ => none }

/-- Node 0, passive, mid-round for initiator 0 with one outstanding answer
and parent 2 recorded: the concrete input for claim C1. -/
def c1State : CmhNode :=
  { mkCmhNode 0 with
    is_active := false,
    last_test := fun a => if a = 0 then some 1 else none,
    wait_status := fun a => if a = 0 then some true else none,
    parent_nodes := fun a => if a = 0 then some 2 else none,
    probe_count := fun a => if a = 0 then some 1 else none }

/-- Node 0, passive, participating in round (0, 1) but with NO probe_count
entry — exactly the state start_detection leaves behind when the waiting set
is empty: the concrete input for claim C4. -/
def c4State : CmhNode :=
  { mkCmhNode 0 with
    is_active := false,
    last_test := fun a => if a = 0 then some 1 else none,
    wait_status := fun a => if a = 0 then some true else none }

/-- Passive node with an empty waiting set, input for the C9 witness. -/
def c9State : CmhNode := { mkCmhNode 4 with is_active := false }

/-- Owner node 1 holding resource X for user 7 with queue [2, 3] — requester
2 arrived before requester 3: the concrete input for claim C2. -/
def c2Owner : RNode :=
  { mkRNode 1 2 with owned_resources := fun r =>
      if r = "X" then some { current_user := some 7, request_queue := [2, 3] }
      else none }

/-- Owner node 1 holding resource X for user 9 with requester 5 already
queued: the concrete input for claim C6. -/
def c6Owner : RNode :=
  { mkRNode 1 2 with owned_resources := fun r =>
      if r = "X" then some { current_user := some 9, request_queue := [5] }
      else none }

/-- Node 1 currently holding resource X owned by node 4: the concrete input
for the C10 witness. -/
def c10Node : RNode :=
  { mkRNode 1 2 with used_resources := fun r =>
      if r = "X" then some 4 else none }

/-- Scenario S6's 3-node ring A(1) -> B(2) -> C(3) -> A(1). -/
def s6Topo : Topo := fun a =>
  if a = 1 then { next := 2, nnext := 3, prev := 3 }
  else if a = 2 then { next := 3, nnext := 1, prev := 1 }
  else if a = 3 then { next := 1, nnext := 2, prev := 2 }
  else { next := a, nnext := a, prev := a }

/-- Overlay state after node A(1) of s6Topo handles missing_node(B = 2). -/
def c3Result : Topo :=
  match missing_node s6Topo 1 2 with
  | MissingNodeOutcome.repaired st1 => st1
  | MissingNodeOutcome.forwarded _ => s6Topo

/-- Stable 3-ring 10 -> 11 -> 12 -> 10 used by the C5 witness. -/
def ring3 : Topo := fun a =>
  if a = 10 then { next := 11, nnext := 12, prev := 12 }
  else if a = 11 then { next := 12, nnext := 10, prev := 10 }
  else if a = 12 then { next := 10, nnext := 11, prev := 11 }
  else { next := a, nnext := a, prev := a }

/-- Indexing of ring3 by ZMod 3. -/
def ring3f : ZMod 3 → Addr := fun i => 10 + i.val

/-- Claim C2 counterexample: owner 1 holds X for 7 with queue [2, 3] where
requester 2 arrived first; on 7's Release the code grants the TAIL requester
3 (Vec::pop), not the head 2 the claim promises, leaving [2] queued. -/
theorem C2_counterexample_release_grants_tail :
    (process_resource_release c2Owner "X" 7).2 =
      [(ResourceMessageType.Granted "X" 3, 1)] ∧
    (process_resource_release c2Owner "X" 7).1.owned_resources "X" =
      some { current_user := some 3, request_queue := [2] } :=
  ⟨rfl, rfl⟩

/-- Claim C2 (amended): grants are LIFO, not FIFO.  When the current holder
releases and the pending queue is q0 ++ [b] — b the most recently arrived
requester — the owner grants b (Vec::pop takes the back) and q0 remains
queued; so of two queued requesters the later-arrived one is granted first. -/
theorem C2_amended_release_grants_most_recent (st : RNode) (resource : String)
    (holder b : Addr) (q0 : List Addr) (state : ResourceState)
    (hown : st.owned_resources resource = some state)
    (hcu : state.current_user = some holder)
    (hq : state.request_queue = q0 ++ [b]) :
    (process_resource_release st resource holder).2 =
      [(ResourceMessageType.Granted resource b, st.addr)] ∧
    (process_resource_release st resource holder).1.owned_resources resource =
      some { current_user := some b, request_queue := q0 } := by
  unfold process_resource_release
  rw [hown]
  simp [hcu, hq, List.getLast?_concat, List.dropLast_concat]

/-- Witness for C2_amended_release_grants_most_recent at the c2Owner state. -/
theorem C2_amended_release_grants_most_recent_witness :
    (process_resource_release c2Owner "X" 7).2 =
      [(ResourceMessageType.Granted "X" 3, c2Owner.addr)] :=
  (C2_amended_release_grants_most_recent c2Owner "X" 7 3 [2]
    { current_user := some 7, request_queue := [2, 3] } rfl rfl rfl).1

/-- Claim C6 counterexample: requester 5 is already queued for X, yet its
second Acquire is enqueued again, so the queue becomes [5, 5] — the same
address twice. -/
theorem C6_counterexample_duplicate_enqueue :
    (process_resource_request c6Owner idRSend "X" 5).st.owned_resources "X" =
      some { current_user := some 9, request_queue := [5, 5] } ∧
    ¬ ([5, 5] : List Addr).Nodup :=
  ⟨rfl, by decide⟩

/-- Claim C6 (amended): while a resource is held, every Acquire the owner
receives appends the sender to the back of the queue unconditionally — no
duplicate check — so an address appears once per Acquire message, not at
most once. -/
theorem C6_amended_acquire_appends_unconditionally (st : RNode) (send : RSend)
    (resource : String) (frm u : Addr) (state : ResourceState)
    (hown : st.owned_resources resource = some state)
    (hcu : state.current_user = some u) :
    (process_resource_request st send resource frm).st.owned_resources resource =
      some { state with request_queue := state.request_queue ++ [frm] } ∧
    (process_resource_request st send resource frm).reply =
      ResourceMessageType.Queued := by
  simp [process_resource_request, hown, hcu]

/-- Witness for C6_amended_acquire_appends_unconditionally at c6Owner. -/
theorem C6_amended_acquire_appends_unconditionally_witness :
    (process_resource_request c6Owner idRSend "X" 5).reply =
      ResourceMessageType.Queued :=
  (C6_amended_acquire_appends_unconditionally c6Owner idRSend "X" 5 9
    { current_user := some 9, request_queue := [5] } rfl rfl).2

/-- Claim C10: release_resource removes the resource from used_resources and
then sends Release (whose reply is discarded, so the removal survives any
send outcome and no other state is touched); when the resource is not held
it returns Ok having done nothing. -/
theorem C10_release_removes_before_send (st : RNode) (resource : String) :
    (st.used_resources resource = none →
      release_resource st resource = (st, [], true)) ∧
    (∀ o, st.used_resources resource = some o →
      (release_resource st resource).1.used_resources resource = none ∧
      (release_resource st resource).2.1 =
        [(ResourceMessageType.Release resource, st.addr)] ∧
      (release_resource st resource).2.2 = true ∧
      (∀ r2, r2 ≠ resource →
        (release_resource st resource).1.used_resources r2 =
          st.used_resources r2) ∧
      (release_resource st resource).1.owned_resources = st.owned_resources ∧
      (release_resource st resource).1.waiting_for = st.waiting_for ∧
      (release_resource st resource).1.blocked_processes =
        st.blocked_processes) := by
  constructor
  · intro h
    unfold release_resource
    rw [h]
  · intro o ho
    unfold release_resource
    rw [ho]
    refine ⟨by simp, rfl, rfl, fun r2 hr => by simp [hr], rfl, rfl, rfl⟩

/-- Witness for C10_release_removes_before_send at c10Node holding X. -/
theorem C10_release_removes_before_send_witness :
    (release_resource c10Node "X").1.used_resources "X" = none :=
  ((C10_release_removes_before_send c10Node "X").2 4 rfl).1

/-- Claim C8 counterexample: the CMH dispatcher's catch-all arm replies
Error(lamport_time), not Unknown (CmhMessageType has no Unknown variant). -/
theorem C8_counterexample_cmh_catchall_is_error :
    (handle_cmh_message (mkCmhNode 0) idCSend CmhMessageType.DenyPermission 1).map
      COut.reply = some (CmhMessageType.Error 0) := rfl

/-- Claim C8 (amended): handle_message replies Unknown to the resource
variants outside ResourceQuery/Acquire/Release/Granted, while
handle_cmh_message replies Error(lamport_time) — not Unknown — to the CMH
variants outside the probe, permission and DetectionStart requests
(DenyPermission, Success, Error). -/
theorem C8_amended_resource_unknown_cmh_error (rst : RNode) (rsend : RSend)
    (cst : CmhNode) (csend : CSend) (frm : Addr) :
    (∀ a, (handle_message rst rsend (ResourceMessageType.Owner a) frm).reply =
      ResourceMessageType.Unknown) ∧
    (handle_message rst rsend ResourceMessageType.Queued frm).reply =
      ResourceMessageType.Unknown ∧
    (handle_message rst rsend ResourceMessageType.Unknown frm).reply =
      ResourceMessageType.Unknown ∧
    (handle_message rst rsend ResourceMessageType.Error frm).reply =
      ResourceMessageType.Unknown ∧
    (handle_message rst rsend ResourceMessageType.Success frm).reply =
      ResourceMessageType.Unknown ∧
    (handle_cmh_message cst csend CmhMessageType.DenyPermission frm).map
      COut.reply = some (CmhMessageType.Error cst.lamport_time) ∧
    (∀ t, (handle_cmh_message cst csend (CmhMessageType.Success t) frm).map
      COut.reply = some (CmhMessageType.Error cst.lamport_time)) ∧
    (∀ t, (handle_cmh_message cst csend (CmhMessageType.Error t) frm).map
      COut.reply = some (CmhMessageType.Error cst.lamport_time)) :=
  ⟨fun _ => rfl, rfl, rfl, rfl, rfl, rfl, fun _ => rfl, fun _ => rfl⟩

/-- Witness for C8_amended_resource_unknown_cmh_error at fresh nodes. -/
theorem C8_amended_resource_unknown_cmh_error_witness :
    (handle_message (mkRNode 0 1) idRSend ResourceMessageType.Queued 2).reply =
      ResourceMessageType.Unknown :=
  (C8_amended_resource_unknown_cmh_error (mkRNode 0 1) idRSend (mkCmhNode 0)
    idCSend 2).2.1

/-- Claim C3: in scenario S6 (ring 1 -> 2 -> 3, node 2 lost), node 1 handling
missing_node(2) leaves node 3 with prev = 2 — the address of the MISSING
node — because server.rs line 171 passes the local `next` instead of the
node's own address to change_prev; the spec expects C.prev = A, i.e. 1.
Next and nnext of node 1 do match the spec (3 and 1). -/
theorem C3_repair_installs_missing_node_as_prev :
    (c3Result 3).prev = 2 ∧ ((2 : Addr) ≠ 1) ∧ (c3Result 1).next = 3 ∧
    (c3Result 1).nnext = 1 ∧ (c3Result 3).next = 1 := by decide

/-- Claim C7: repair_topology never writes true to the repairing flag — when
the flag is false it issues the missing_node self-call with the flag still
false and merely re-writes false afterwards; only a flag already true (which
no code path ever produces) suppresses the call. -/
theorem C7_repairing_flag_never_written_true :
    repair_topology false =
      { issued_missing := true, flag_writes := [false],
        final_repairing := false } ∧
    repair_topology true =
      { issued_missing := false, flag_writes := [],
        final_repairing := true } := by decide

/-- Claim C4: a ProbeAnswer addressed to a passive node that passes the
last_test and wait_status checks while probe_count has no entry for the
initiator is NOT tolerated: the debug statement at cmh_funcs.rs line 276
unwraps the absent key (debug logging is hard-enabled in main.rs) and the
handler aborts instead of returning normally. -/
theorem C4_absent_probe_count_aborts_handler :
    handle_cmh_message c4State idCSend (CmhMessageType.ProbeAnswer 0 1 5 0) 3 =
      none := rfl

/-- Claim C1 counterexample: node 0 (initiator k = 0) handles
ProbeAnswer(k = 0, m = 1, r = 1, j = 0); its counter 1 reaches zero and the
code declares deadlock even though the bounced node r = 1 differs from the
node's own address 0 — the claim says this case must instead propagate to
parent_nodes[k] = 2.  Nothing is sent. -/
theorem C1_counterexample_declares_with_r_ne_self :
    (handle_cmh_message c1State idCSend (CmhMessageType.ProbeAnswer 0 1 1 0)
      2).map COut.declared = some true ∧
    (1 : Addr) ≠ c1State.addr ∧
    (handle_cmh_message c1State idCSend (CmhMessageType.ProbeAnswer 0 1 1 0)
      2).map COut.sent = some [] :=
  ⟨rfl, by decide, rfl⟩

/-- Claim C1 (amended): for a ProbeAnswer(k, m, r, j) handled by the node it
is addressed to (j = self) that passes the activity and round checks with
counter n + 1, deadlock is declared iff the decrement reaches zero AND
k = self — the bounced node r is not consulted (the code's second conjunct
tests the destination field, which is always self here); in the remaining
zero-counter cases a ProbeAnswer is propagated to parent_nodes[k] when a
parent is recorded, and nothing is sent when none is. -/
theorem C1_amended_deadlock_iff_initiator (st : CmhNode) (send : CSend)
    (k : Addr) (m : Nat) (r frm : Addr) (n : Nat)
    (hact : st.is_active = false)
    (hlt : (st.last_test k).getD 0 = m)
    (hws : (st.wait_status k).getD false = true)
    (hpc : st.probe_count k = some (n + 1)) :
    handle_cmh_message st send (CmhMessageType.ProbeAnswer k m r st.addr)
      frm ≠ none ∧
    (coutDeclared (handle_cmh_message st send
        (CmhMessageType.ProbeAnswer k m r st.addr) frm) = true ↔
      (n = 0 ∧ k = st.addr)) ∧
    (n = 0 → k ≠ st.addr →
      coutSent (handle_cmh_message st send
          (CmhMessageType.ProbeAnswer k m r st.addr) frm) =
        (match st.parent_nodes k with
          | some p => [(CmhMessageType.ProbeAnswer k m st.addr p, st.addr)]
          | none => [])) := by
  have hpc2 : st.probe_count k = some n.succ := hpc
  by_cases hn : n = 0
  · subst hn
    by_cases hk : k = st.addr
    · subst hk
      refine ⟨?_, ?_, ?_⟩
      · simp [handle_cmh_message, handle_probe_answer, hact, hlt, hws, hpc2]
      · simp [handle_cmh_message, handle_probe_answer, coutDeclared, hact,
          hlt, hws, hpc2]
      · intro _ hk2; exact absurd rfl hk2
    · cases hpn : st.parent_nodes k with
      | some p =>
          refine ⟨?_, ?_, ?_⟩
          · simp [handle_cmh_message, handle_probe_answer, hact, hlt, hws,
              hpc2, hk, hpn]
          · simp [handle_cmh_message, handle_probe_answer, coutDeclared,
              hact, hlt, hws, hpc2, hk, hpn]
          · intro _ _
            simp [handle_cmh_message, handle_probe_answer, coutSent, hact,
              hlt, hws, hpc2, hk, hpn]
      | none =>
          refine ⟨?_, ?_, ?_⟩
          · simp [handle_cmh_message, handle_probe_answer, hact, hlt, hws,
              hpc2, hk, hpn]
          · simp [handle_cmh_message, handle_probe_answer, coutDeclared,
              hact, hlt, hws, hpc2, hk, hpn]
          · intro _ _
            simp [handle_cmh_message, handle_probe_answer, coutSent, hact,
              hlt, hws, hpc2, hk, hpn]
  · refine ⟨?_, ?_, ?_⟩
    · simp [handle_cmh_message, handle_probe_answer, hact, hlt, hws, hpc2, hn]
    · simp [handle_cmh_message, handle_probe_answer, coutDeclared, hact,
        hlt, hws, hpc2, hn]
    · intro hn2 _; exact absurd hn2 hn

/-- Witness for C1_amended_deadlock_iff_initiator at the c1State input. -/
theorem C1_amended_deadlock_iff_initiator_witness :
    coutDeclared (handle_cmh_message c1State idCSend
      (CmhMessageType.ProbeAnswer 0 1 1 c1State.addr) 2) = true ↔
      (0 = 0 ∧ (0 : Addr) = c1State.addr) :=
  (C1_amended_deadlock_iff_initiator c1State idCSend 0 1 1 2 0
    rfl rfl rfl rfl).2.1

/-- Claim C9: start_detection on a passive node with an empty waiting set
replies Success, sends nothing, bumps last_test[self], sets
wait_status[self], and leaves probe_count untouched — so with no prior
probe_count[self] entry, no ProbeAnswer addressed to this node for initiator
self can ever make the round declare deadlock. -/
theorem C9_start_detection_empty_waiting (st : CmhNode)
    (hpassive : st.is_active = false)
    (hempty : st.waiting_messages_from = [])
    (hnoc : st.probe_count st.addr = none) :
    (start_detection st).2.1 = CmhMessageType.Success st.lamport_time ∧
    (start_detection st).2.2 = [] ∧
    (start_detection st).1.last_test st.addr =
      some ((st.last_test st.addr).getD 0 + 1) ∧
    (start_detection st).1.wait_status st.addr = some true ∧
    (start_detection st).1.probe_count = st.probe_count ∧
    (∀ m r, paDeclared (handle_probe_answer (start_detection st).1 st.addr m r
      (start_detection st).1.addr) = false) := by
  refine ⟨?_, ?_, ?_, ?_, ?_, ?_⟩
  · simp [start_detection, hpassive, hempty, probe_loop]
  · simp [start_detection, hpassive, hempty, probe_loop]
  · simp [start_detection, hpassive, hempty, probe_loop]
  · simp [start_detection, hpassive, hempty, probe_loop]
  · simp [start_detection, hpassive, hempty, probe_loop]
  · intro m r
    simp only [start_detection, hpassive, hempty, Bool.false_eq_true,
      if_false, probe_loop]
    by_cases hm : m = (st.last_test st.addr).getD 0 + 1
    · simp [handle_probe_answer, paDeclared, hm, hnoc]
    · simp [handle_probe_answer, paDeclared, hm, hnoc]

/-- Witness for C9_start_detection_empty_waiting at the fresh passive node 4. -/
theorem C9_start_detection_empty_waiting_witness :
    (start_detection c9State).2.2 = [] :=
  (C9_start_detection_empty_waiting c9State rfl rfl rfl).2.1

/-- Reading updTopo at the written node yields the written record. -/
theorem updTopo_self (st : Topo) (a : Addr) (t : NeighborInfo) :
    updTopo st a t a = t := by
  simp [updTopo]

/-- Reading updTopo elsewhere yields the old state. -/
theorem updTopo_ne (st : Topo) {a b : Addr} (t : NeighborInfo) (h : b ≠ a) :
    updTopo st a t b = st b := by
  simp [updTopo, h]

/-- Join-then-leave round trip on the singleton ring: newcomer x joins the
lone node h and leaves again; every node other than x is unchanged. -/
theorem join_leave_single (st : Topo) (h x : Addr)
    (hst : st h = { next := h, nnext := h, prev := h })
    (hxh : x ≠ h) :
    ∀ a, a ≠ x → join_then_leave st h x a = st a := by
  intro a hax
  have hhx : h ≠ x := Ne.symm hxh
  by_cases hah : a = h
  · subst hah
    simp [join_then_leave, try_join_other, other_joining, leave_topology,
      change_next, change_nnext, change_prev, change_nnext_of_prev, updTopo,
      hst, hxh, hhx, hax]
  · simp [join_then_leave, try_join_other, other_joining, leave_topology,
      change_next, change_nnext, change_prev, change_nnext_of_prev, updTopo,
      hst, hxh, hhx, hax, hah]

/-- Join-then-leave round trip on the 2-ring {h, q}: newcomer x joins via h
and leaves again (through the 3-node leave branch); every node other than x
is unchanged. -/
theorem join_leave_two (st : Topo) (h q x : Addr)
    (hsth : st h = { next := q, nnext := h, prev := q })
    (hstq : st q = { next := h, nnext := q, prev := h })
    (hhq : h ≠ q) (hxh : x ≠ h) (hxq : x ≠ q) :
    ∀ a, a ≠ x → join_then_leave st h x a = st a := by
  intro a hax
  have hqh : q ≠ h := Ne.symm hhq
  have hhx : h ≠ x := Ne.symm hxh
  have hqx : q ≠ x := Ne.symm hxq
  by_cases hah : a = h
  · subst hah
    simp [join_then_leave, try_join_other, other_joining, leave_topology,
      change_next, change_nnext, change_prev, change_nnext_of_prev, updTopo,
      hsth, hstq, hhq, hqh, hxh, hhx, hxq, hqx]
  · by_cases haq : a = q
    · subst haq
      simp [join_then_leave, try_join_other, other_joining, leave_topology,
        change_next, change_nnext, change_prev, change_nnext_of_prev, updTopo,
        hsth, hstq, hhq, hqh, hxh, hhx, hxq, hqx]
    · simp [join_then_leave, try_join_other, other_joining, leave_topology,
        change_next, change_nnext, change_prev, change_nnext_of_prev, updTopo,
        hsth, hstq, hhq, hqh, hxh, hhx, hxq, hqx, hah, haq, hax]

/-- Join-then-leave round trip on a ring of three or more nodes: h with
predecessor p and successor nx (pairwise distinct), h's nnext nn distinct
from h; newcomer x joins via h and leaves again through the 4-or-more leave
branch; every node other than x is unchanged. -/
theorem join_leave_big (st : Topo) (h p nx nn x np pp nxn nxnn : Addr)
    (hsth : st h = { next := nx, nnext := nn, prev := p })
    (hstp : st p = { next := np, nnext := nx, prev := pp })
    (hstnx : st nx = { next := nxn, nnext := nxnn, prev := h })
    (hhp : h ≠ p) (hhnx : h ≠ nx) (hpnx : p ≠ nx) (hhnn : h ≠ nn)
    (hxh : x ≠ h) (hxp : x ≠ p) (hxnx : x ≠ nx) :
    ∀ a, a ≠ x → join_then_leave st h x a = st a := by
  intro a hax
  have hph : p ≠ h := Ne.symm hhp
  have hnxh : nx ≠ h := Ne.symm hhnx
  have hnxp : nx ≠ p := Ne.symm hpnx
  have hnnh : nn ≠ h := Ne.symm hhnn
  have hhx : h ≠ x := Ne.symm hxh
  have hpx : p ≠ x := Ne.symm hxp
  have hnxx : nx ≠ x := Ne.symm hxnx
  by_cases hah : a = h
  · subst hah
    simp [join_then_leave, try_join_other, other_joining, leave_topology,
      change_next, change_nnext, change_prev, change_nnext_of_prev, updTopo,
      hsth, hstp, hstnx, hhp, hph, hhnx, hnxh, hpnx, hnxp, hhnn, hnnh,
      hxh, hhx, hxp, hpx, hxnx, hnxx]
  · by_cases hap : a = p
    · subst hap
      simp [join_then_leave, try_join_other, other_joining, leave_topology,
        change_next, change_nnext, change_prev, change_nnext_of_prev, updTopo,
        hsth, hstp, hstnx, hhp, hph, hhnx, hnxh, hpnx, hnxp, hhnn, hnnh,
        hxh, hhx, hxp, hpx, hxnx, hnxx]
    · by_cases hanx : a = nx
      · subst hanx
        simp [join_then_leave, try_join_other, other_joining, leave_topology,
          change_next, change_nnext, change_prev, change_nnext_of_prev,
          updTopo, hsth, hstp, hstnx, hhp, hph, hhnx, hnxh, hpnx, hnxp,
          hhnn, hnnh, hxh, hhx, hxp, hpx, hxnx, hnxx]
      · simp [join_then_leave, try_join_other, other_joining, leave_topology,
          change_next, change_nnext, change_prev, change_nnext_of_prev,
          updTopo, hsth, hstp, hstnx, hhp, hph, hhnx, hnxh, hpnx, hnxp,
          hhnn, hnnh, hxh, hhx, hxp, hpx, hxnx, hnxx, hah, hap, hanx, hax]

/-- Claim C5: on a stable ring of any size n ≥ 1 — nodes f 0, ..., f (n-1)
with next = f (i+1), nnext = f (i+2), prev = f (i-1) — a fresh node x joining
via any member f i0 (other_joining plus installing the returned triple) and
then gracefully leaving (leave_topology) restores the full neighbor triple of
every node other than x to its pre-join value. -/
theorem C5_join_then_leave_roundtrip (n : ℕ) (hn : 0 < n) (f : ZMod n → Addr)
    (hinj : Function.Injective f) (st : Topo)
    (hring : ∀ i : ZMod n, st (f i) =
      { next := f (i + 1), nnext := f (i + 2), prev := f (i - 1) })
    (x : Addr) (hx : ∀ i : ZMod n, f i ≠ x) (i0 : ZMod n) :
    ∀ a, a ≠ x → join_then_leave st (f i0) x a = st a := by
  match n, hn, f, hinj, hring, hx, i0 with
  | 1, _, f, hinj, hring, hx, i0 =>
      have e1 : i0 + 1 = i0 := Subsingleton.elim _ _
      have e2 : i0 + 2 = i0 := Subsingleton.elim _ _
      have e3 : i0 - 1 = i0 := Subsingleton.elim _ _
      have hst : st (f i0) = { next := f i0, nnext := f i0, prev := f i0 } := by
        rw [hring i0, e1, e2, e3]
      exact join_leave_single st (f i0) x hst (Ne.symm (hx i0))
  | 2, _, f, hinj, hring, hx, i0 =>
      have e2 : i0 + 2 = i0 := by
        rw [show (2 : ZMod 2) = 0 from by decide, add_zero]
      have em1 : i0 - 1 = i0 + 1 := by
        rw [sub_eq_add_neg, show (-1 : ZMod 2) = 1 from by decide]
      have ea : i0 + 1 + 1 = i0 := by
        rw [add_assoc, show (1 + 1 : ZMod 2) = 0 from by decide, add_zero]
      have eb : i0 + 1 + 2 = i0 + 1 := by
        rw [add_assoc, show (1 + 2 : ZMod 2) = 1 from by decide]
      have ec : i0 + 1 - 1 = i0 := by ring
      have hsth : st (f i0) =
          { next := f (i0 + 1), nnext := f i0, prev := f (i0 + 1) } := by
        have hr := hring i0
        rw [e2, em1] at hr
        exact hr
      have hstq : st (f (i0 + 1)) =
          { next := f i0, nnext := f (i0 + 1), prev := f i0 } := by
        have hr := hring (i0 + 1)
        rw [ea, eb, ec] at hr
        exact hr
      have hne : i0 ≠ i0 + 1 := by
        rw [Ne, self_eq_add_right]
        decide
      exact join_leave_two st (f i0) (f (i0 + 1)) x hsth hstq (hinj.ne hne)
        (Ne.symm (hx i0)) (Ne.symm (hx (i0 + 1)))
  | (m + 3), _, f, hinj, hring, hx, i0 =>
      haveI : Fact (1 < m + 3) := ⟨by omega⟩
      have h10 : (1 : ZMod (m + 3)) ≠ 0 := one_ne_zero
      have h20 : (2 : ZMod (m + 3)) ≠ 0 := by
        intro hcon
        have h2 : ((2 : ℕ) : ZMod (m + 3)) = 0 := by exact_mod_cast hcon
        rw [ZMod.natCast_zmod_eq_zero_iff_dvd] at h2
        have := Nat.le_of_dvd (by norm_num) h2
        omega
      have k1 : i0 ≠ i0 + 1 := by
        rw [Ne, self_eq_add_right]
        exact h10
      have k2 : i0 ≠ i0 - 1 := by
        intro hcon
        have hstep : i0 + 1 = i0 := by
          calc i0 + 1 = (i0 - 1) + 1 := by rw [← hcon]
          _ = i0 := by ring
        exact h10 (self_eq_add_right.mp hstep.symm)
      have k3 : i0 + 1 ≠ i0 - 1 := by
        intro hcon
        have hstep : i0 + 2 = i0 := by
          calc i0 + 2 = (i0 + 1) + 1 := by ring
          _ = (i0 - 1) + 1 := by rw [hcon]
          _ = i0 := by ring
        exact h20 (self_eq_add_right.mp hstep.symm)
      have k4 : i0 ≠ i0 + 2 := by
        rw [Ne, self_eq_add_right]
        exact h20
      have hsth := hring i0
      have hstp := hring (i0 - 1)
      have hstnx := hring (i0 + 1)
      rw [show i0 - 1 + 1 = i0 from by ring,
          show i0 - 1 + 2 = i0 + 1 from by ring] at hstp
      rw [show i0 + 1 - 1 = i0 from by ring] at hstnx
      exact join_leave_big st (f i0) (f (i0 - 1)) (f (i0 + 1)) (f (i0 + 2)) x
        (f i0) (f (i0 - 1 - 1)) (f (i0 + 1 + 1)) (f (i0 + 1 + 2))
        hsth hstp hstnx (hinj.ne k2) (hinj.ne k1) (hinj.ne (Ne.symm k3))
        (hinj.ne k4) (Ne.symm (hx i0)) (Ne.symm (hx (i0 - 1)))
        (Ne.symm (hx (i0 + 1)))

/-- Witness for C5_join_then_leave_roundtrip on the 3-ring 10-11-12 with
newcomer 99 joining via node 10 and node 11 observed unchanged. -/
theorem C5_join_then_leave_roundtrip_witness :
    join_then_leave ring3 (ring3f 0) 99 11 = ring3 11 :=
  C5_join_then_leave_roundtrip 3 (by norm_num) ring3f (by decide) ring3
    (by decide) 99 (by decide) 0 11 (by norm_num)

end TarpcSystem
